import Mathlib

/-!
Shallow embedding of the gateway logic of `rasa_core/server.py`:
the `ErrorResponse` envelope and its exception handler, the
`requires_auth` authorization gate, the `_get_output_channel`
resolver, and the two conversation-sweep endpoints
(`handle_message_w_condition` and `trigger_resume_inactive_conv`).

External collaborators (tracker store, dialogue agent, JWT library)
are modelled as explicit function parameters; machine-level details
(bytes keys, float second counts) are modelled as `String` keys and
`Int` whole-second timestamps, which is the granularity every claim
is stated at.
-/

namespace RasaServer

/-- The version string of the external `rasa` package (`rasa.__version__`);
its concrete value never influences the gateway logic. -/
def rasa_version : String := "1.0.0"

/-- External constant `rasa_core.constants.DOCS_BASE_URL`. -/
def DOCS_BASE_URL : String := "https://rasa.com/docs/core"

/-- `_docs(sub_url)`: create a url to a subpart of the docs. -/
def _docs (sub_url : String) : String := DOCS_BASE_URL ++ sub_url

/-- The `error_info` dict built by `ErrorResponse.__init__`; the `details`
map is modelled as an association list. -/
structure ErrorInfo where
  version : String
  status : String
  message : String
  reason : String
  details : List (String × String)
  help : Option String
  code : Nat
deriving DecidableEq

/-- The `ErrorResponse` exception: the `error_info` payload plus the HTTP
`status` stored on the exception object. -/
structure ErrorResponse where
  error_info : ErrorInfo
  status : Nat
deriving DecidableEq

/-- `ErrorResponse.__init__(self, status, reason, message, details=None,
help_url=None)`: `error_info` is filled with `rasa.__version__`, the literal
`"failure"`, the message, the reason, `details or {}`, the help url and the
numeric status; `self.status` is the same numeric status. -/
def ErrorResponse.init (status : Nat) (reason : String) (message : String)
    (details : Option (List (String × String))) (help_url : Option String) :
    ErrorResponse :=
  ⟨⟨rasa_version, "failure", message, reason, details.getD [], help_url, status⟩, status⟩

/-- The HTTP response produced by the registered exception handler. -/
structure JsonHttpResponse where
  body : ErrorInfo
  http_status : Nat
deriving DecidableEq

/-- Exception handler `ignore_404s`: responds with `exception.error_info` as
the JSON body and `exception.status` as the HTTP status. -/
def ignore_404s (exception : ErrorResponse) : JsonHttpResponse :=
  ⟨exception.error_info, exception.status⟩

/-- `sufficient_scope` inside `requires_auth`: `role == "admin"` grants;
`role == "user"` grants iff the operation has a `sender_id` argument and the
token's `username` equals it; any other role is denied.  `username` and
`role` come from the verified JWT payload and may be absent. -/
def sufficient_scope (username role sender_id : Option String) : Bool :=
  if role = some "admin" then true
  else if role = some "user" then decide (sender_id ≠ none ∧ username = sender_id)
  else false

/-- Outcome of the `requires_auth` gate: either the wrapped handler runs, or
an `ErrorResponse` is raised. -/
inductive AuthDecision where
  | granted
  | failed (e : ErrorResponse)
deriving DecidableEq

/-- The `decorated` wrapper produced by `requires_auth(app, token)`:
`token` is the configured static secret, `provided` the request's `token`
query parameter, `use_jwt` whether `app.config['USE_JWT']` was set at
startup, `is_authenticated` the JWT library's verdict on the request, and
`username`/`role` the claims of its payload.  Branch order follows the
source: static-secret match, then JWT scope check (403 on insufficient
scope), then the authentication-disabled case, else 401. -/
def requires_auth_decorated (token provided : Option String)
    (use_jwt is_authenticated : Bool)
    (username role sender_id : Option String) : AuthDecision :=
  if token ≠ none ∧ provided = token then .granted
  else if use_jwt = true ∧ is_authenticated = true then
    (if sufficient_scope username role sender_id then .granted
     else .failed (ErrorResponse.init 403 "NotAuthorized"
       "User has insufficient permissions."
       none (some (_docs "/server.html#security-considerations"))))
  else if token = none ∧ use_jwt = false then .granted
  else .failed (ErrorResponse.init 401 "NotAuthenticated"
    "User is not authenticated."
    none (some (_docs "/server.html#security-considerations")))

/-- Query-parameter key read by `_get_output_channel`. -/
def OUTPUT_CHANNEL_QUERY_KEY : String := "output_channel"

/-- Sentinel value meaning "use the latest input channel as output channel". -/
def USE_LATEST_INPUT_CHANNEL_AS_OUTPUT_CHANNEL : String := "latest"

/-- An output channel handle: either the fallback in-memory
`CollectingOutputChannel()` or a handle produced by a registered input
channel's `get_output_channel()` (distinguished by an opaque tag). -/
inductive OutputChannel where
  | collecting
  | ofInput (tag : String)
deriving DecidableEq

/-- Read-only view of a registered input channel: its `name()` and the
result of `get_output_channel()` (`none` models a `None` return). -/
structure InputChannel where
  name : String
  output_channel : Option OutputChannel
deriving DecidableEq

/-- The slice of a `DialogueStateTracker` consumed by the gateway:
`get_latest_input_channel()`, `get_slot(name)`, and the
`latest_event_time` of its current state, in whole seconds since epoch. -/
structure Tracker where
  latest_input_channel : Option String
  get_slot : String → Option String
  latest_event_time : Int

/-- The first statements of `_get_output_channel`: if the requested name is
the `"latest"` sentinel and a tracker is available, replace it with the
tracker's latest input channel (which may itself be `None`). -/
def resolve_requested_output_channel (requested_output_channel : Option String)
    (tracker : Option Tracker) : Option String :=
  match requested_output_channel, tracker with
  | some r, some t =>
      if r = USE_LATEST_INPUT_CHANNEL_AS_OUTPUT_CHANNEL then t.latest_input_channel
      else some r
  | r, _ => r

/-- `_get_output_channel(request, tracker)`: resolve the requested name,
filter the registered input channels by that name, and fold them with
`input_channel.get_output_channel() or output_channel_created_so_far`
starting from `CollectingOutputChannel()` (the `reduce` in the source). -/
def _get_output_channel (requested_output_channel : Option String)
    (tracker : Option Tracker)
    (registered_input_channels : List InputChannel) : OutputChannel :=
  let requested := resolve_requested_output_channel requested_output_channel tracker
  let matching_channels := registered_input_channels.filter
    (fun channel => some channel.name == requested)
  matching_channels.foldl
    (fun output_channel_created_so_far input_channel =>
      input_channel.output_channel.getD output_channel_created_so_far)
    OutputChannel.collecting

/-- The first (in registration order) candidate able to produce an output
channel, if any. -/
def first_capable : List InputChannel → Option OutputChannel
  | [] => none
  | channel :: rest =>
    match channel.output_channel with
    | some o => some o
    | none => first_capable rest

/-- Modelled from the spec: "Among the filtered candidates, select the first
one (in registration order) that is capable of producing an output channel
(`providesOutput = true`); if none qualify — including the case of zero
filtered candidates or an unresolved name — fall back to a generic in-memory
collecting channel."  Used only to compare the source resolver against the
spec's words. -/
def _get_output_channel_spec (requested_output_channel : Option String)
    (tracker : Option Tracker)
    (registered_input_channels : List InputChannel) : OutputChannel :=
  let requested := resolve_requested_output_channel requested_output_channel tracker
  let matching_channels := registered_input_channels.filter
    (fun channel => some channel.name == requested)
  (first_capable matching_channels).getD OutputChannel.collecting

/-- The last (in registration order) candidate able to produce an output
channel, if any: what the source's `reduce` actually selects. -/
def last_capable : List InputChannel → Option OutputChannel
  | [] => none
  | channel :: rest =>
    match last_capable rest with
    | some o => some o
    | none => channel.output_channel

/-- A Python exception escaping an external call: either a `ValueError`
(handled separately by the endpoints) or any other `Exception`. -/
inductive PyErr where
  | valueError (msg : String)
  | exception (msg : String)
deriving DecidableEq

/-- Message of the `IndexError` raised by indexing `[0]` into an empty
`re.findall` result. -/
def index_error_message : String := "list index out of range"

/-- First match of the regex `\+[0-9]+` over a character list: the leftmost
position holding a literal `'+'` followed by at least one decimal digit,
taking the maximal (greedy) digit run — the semantics of
`re.findall('\+[0-9]+', s)[0]` when a match exists. -/
def findall_plus_digits : List Char → Option (List Char)
  | [] => none
  | c :: rest =>
    if c = '+' ∧ rest.takeWhile Char.isDigit ≠ [] then
      some (c :: rest.takeWhile Char.isDigit)
    else findall_plus_digits rest

/-- `re.findall('\+[0-9]+', id.decode('utf-8'))[0]` as a partial function of
the (already UTF-8-decoded) store key: `none` when the key holds no
`\+[0-9]+` substring, in which case the source raises `IndexError`. -/
def first_phone_match (s : String) : Option String :=
  (findall_plus_digits s.data).map (fun l => String.mk l)

/-- The request context of `/conversations/handle-message-w-condition`:
its JSON parameters, the process-wide registered channels and the external
collaborators (tracker store and agent), as consumed by the loop body. -/
structure HmwcRequest where
  message_to_handle : String
  slot_condition_name : String
  slot_value : Option String
  force_update : Bool
  requested_output_channel : Option String
  input_channels : List InputChannel
  get_or_create_tracker : String → Tracker
  handle_text : String → OutputChannel → String → Except PyErr Unit

/-- The per-key loop of `handle_message_w_condition`, threading the
`responses` dict (an insertion-ordered association list): extract the phone
substring from the key (raising `IndexError` when absent), look up the
tracker, and when the slot condition matches or the update is forced call
`agent.handle_text` with the resolved output channel, recording the key on
success.  Any escaping exception aborts the whole loop. -/
def hmwcGo (p : HmwcRequest) :
    List String → List (String × String) → Except PyErr (List (String × String))
  | [], responses => .ok responses
  | id :: rest, responses =>
    match first_phone_match id with
    | none => .error (.exception index_error_message)
    | some sender_id_str =>
      let tracker := p.get_or_create_tracker sender_id_str
      let tracker_slot_value := tracker.get_slot p.slot_condition_name
      if p.force_update || (tracker_slot_value == p.slot_value) then
        match p.handle_text p.message_to_handle
            (_get_output_channel p.requested_output_channel (some tracker) p.input_channels)
            sender_id_str with
        | .ok _ =>
          hmwcGo p rest (responses ++
            [(id, "Message " ++ p.message_to_handle ++ " handle from id " ++ sender_id_str)])
        | .error e => .error e
      else hmwcGo p rest responses

/-- `handle_message_w_condition(request)`: run the loop over the enumerated
store keys inside one `try`; a `ValueError` anywhere in the loop becomes a
400 `ErrorResponse`, any other exception a 500 `"ActionException"`; only a
fully successful loop returns the `responses` dict. -/
def handle_message_w_condition (p : HmwcRequest) (ids : List String) :
    Except ErrorResponse (List (String × String)) :=
  match hmwcGo p ids [] with
  | .ok responses => .ok responses
  | .error (.valueError m) => .error (ErrorResponse.init 400 "ValueError" m none none)
  | .error (.exception m) =>
    .error (ErrorResponse.init 500 "ActionException"
      ("Server failure. Error: " ++ m) none none)

/-- `seconds_in_a_day` local of `trigger_resume_inactive_conv`. -/
def seconds_in_a_day : Int := 86400

/-- `compare_utcdatetime_with_timegap(dt_a, dt_b, gap)`:
`(dt_a - dt_b).total_seconds() >= gap`, over whole-second timestamps. -/
def compare_utcdatetime_with_timegap (dt_a dt_b gap : Int) : Bool :=
  decide (gap ≤ dt_a - dt_b)

/-- The request context of `/conversations/resume-dead-conversations`:
its JSON parameters (`policy` and `confidence` are forwarded opaquely),
the registered channels, and the external tracker store and agent. -/
structure TrcRequest where
  action_to_execute : String
  policy : Option String
  confidence : Option String
  force_update : Bool
  requested_output_channel : Option String
  input_channels : List InputChannel
  get_or_create_tracker : String → Tracker
  execute_action :
    String → String → OutputChannel → Option String → Option String → Except PyErr Unit
  current_time : Int

/-- The per-key loop of `trigger_resume_inactive_conv`: fetch the tracker,
rebuild a fresh tracker from its dialogue (`init_tracker` +
`recreate_from_dialogue`, which reproduces the same recorded history and is
modelled as the same tracker value), and when the last event is at least
`seconds_in_a_day` old — or the update is forced — run the action inside a
`try` whose handlers re-raise `ErrorResponse(400)` on `ValueError` and
`ErrorResponse(500, "ValueError")` on any other exception, aborting the
loop. -/
def trcGo (p : TrcRequest) :
    List String → List (String × String) → Except ErrorResponse (List (String × String))
  | [], responses => .ok responses
  | id :: rest, responses =>
    let tracker := p.get_or_create_tracker id
    let new_tracker := tracker
    let last_event_ts_from_id := tracker.latest_event_time
    if p.force_update ||
        compare_utcdatetime_with_timegap p.current_time last_event_ts_from_id
          seconds_in_a_day then
      match p.execute_action id p.action_to_execute
          (_get_output_channel p.requested_output_channel (some new_tracker) p.input_channels)
          p.policy p.confidence with
      | .ok _ => trcGo p rest (responses ++ [(id, "Action trigger sent")])
      | .error (.valueError m) =>
        .error (ErrorResponse.init 400 "ValueError" m none none)
      | .error (.exception m) =>
        .error (ErrorResponse.init 500 "ValueError"
          ("Server failure. Error: " ++ m) none none)
    else trcGo p rest responses

/-- `trigger_resume_inactive_conv(request)`: the loop over the enumerated
store keys, starting from an empty `responses` dict. -/
def trigger_resume_inactive_conv (p : TrcRequest) (ids : List String) :
    Except ErrorResponse (List (String × String)) :=
  trcGo p ids []

/-- Concrete sweep request for the failure-isolation counterexample: force
update set, and an agent whose `handle_text` raises for sender `"+2"` only. -/
def pC1 : HmwcRequest :=
  ⟨"ping", "", none, true, none, [],
   fun _ => ⟨none, fun _ => none, 0⟩,
   fun _ _ sender_id => if sender_id = "+2" then .error (.exception "boom") else .ok ()⟩

/-- Concrete resume request whose `execute_action` always raises. -/
def pT1 : TrcRequest :=
  ⟨"action_wake", none, none, true, none, [],
   fun _ => ⟨none, fun _ => none, 0⟩,
   fun _ _ _ _ _ => .error (.exception "down"), 0⟩

/-- Concrete sweep request where the slot condition fails: the stored slot
value `"no"` differs from the requested `"yes"` and update is not forced. -/
def pC7 : HmwcRequest :=
  ⟨"ping", "due", some "yes", false, none, [],
   fun _ => ⟨none, fun _ => some "no", 0⟩,
   fun _ _ _ => .ok ()⟩

/-- Concrete sweep request that triggers for sender `"+1"` (slot matches)
and skips sender `"+2"` (slot differs); all actions succeed. -/
def pW7 : HmwcRequest :=
  ⟨"ping", "due", some "yes", false, none, [],
   fun s => ⟨none, fun _ => if s = "+1" then some "yes" else some "no", 0⟩,
   fun _ _ _ => .ok ()⟩

/-- Concrete sweep request with a well-behaved store and agent, used to
exercise a key holding no phone-number-like substring. -/
def pC9 : HmwcRequest :=
  ⟨"ping", "", none, true, none, [],
   fun _ => ⟨none, fun _ => none, 0⟩,
   fun _ _ _ => .ok ()⟩

/-- Concrete resume request family: update not forced, every tracker's last
event at timestamp `ts`, sweep start at `ct`, actions always succeeding. -/
def p_stale (ct ts : Int) : TrcRequest :=
  ⟨"action_resume", none, none, false, none, [],
   fun _ => ⟨none, fun _ => none, ts⟩,
   fun _ _ _ _ _ => .ok (), ct⟩

/-- Concrete resume request: key `"old"` has its last event at time 0 and
key `"new"` at time 100000, the sweep starts at 86400, update is not
forced, and every action succeeds — so `"old"` is exactly a day stale and
triggers while `"new"` is recent and is skipped. -/
def pW7t : TrcRequest :=
  ⟨"action_resume", none, none, false, none, [],
   fun id => ⟨none, fun _ => none, if id = "old" then 0 else 100000⟩,
   fun _ _ _ _ _ => .ok (), 86400⟩

/-- Two registered channels with the same name, both able to produce an
output channel: they separate "first capable" from "last capable". -/
def c4_channels : List InputChannel :=
  [⟨"telegram", some (.ofInput "first")⟩, ⟨"telegram", some (.ofInput "second")⟩]

/-! ## Theorems -/

theorem sufficient_scope_user (username sender_id : Option String) :
    sufficient_scope username (some "user") sender_id
      = decide (sender_id ≠ none ∧ username = sender_id) := by
  simp [sufficient_scope]

/-- Claim C3: if a static shared secret is configured and the request's
token equals it, the gate grants access unconditionally — before and
regardless of any JWT evaluation, for any role and any target sender id. -/
theorem shared_secret_grants (s : String) (use_jwt is_authenticated : Bool)
    (username role sender_id : Option String) :
    requires_auth_decorated (some s) (some s) use_jwt is_authenticated
      username role sender_id = .granted := by
  unfold requires_auth_decorated
  rw [if_pos ⟨by simp, rfl⟩]

/-- Claim C5: when neither a shared secret nor bearer/JWT auth is
configured, every request is granted, whatever credentials (or none) it
carries; as a pure function of the request this holds for every repetition. -/
theorem disabled_mode_grants (provided : Option String) (is_authenticated : Bool)
    (username role sender_id : Option String) :
    requires_auth_decorated none provided false is_authenticated
      username role sender_id = .granted := by
  unfold requires_auth_decorated
  rw [if_neg (by simp), if_neg (by simp), if_pos ⟨rfl, rfl⟩]

/-- Claim C2: in bearer/JWT mode with role `user` (and the shared-secret
branch not taken), access is granted iff the operation carries a
`sender_id` equal to the token's username; an operation without a
`sender_id` is denied; and every denial at this stage is the 403
`NotAuthorized` response, not the 401 one. -/
theorem user_role_scope (token provided username sender_id : Option String)
    (hsecret : ¬ (token ≠ none ∧ provided = token)) :
    (requires_auth_decorated token provided true true username (some "user") sender_id
        = .granted ↔ sender_id ≠ none ∧ username = sender_id)
    ∧ (sender_id = none →
        requires_auth_decorated token provided true true username (some "user") sender_id
          = .failed (ErrorResponse.init 403 "NotAuthorized"
              "User has insufficient permissions."
              none (some (_docs "/server.html#security-considerations"))))
    ∧ (∀ e, requires_auth_decorated token provided true true username (some "user") sender_id
          = .failed e → e.status = 403 ∧ e.error_info.reason = "NotAuthorized"
            ∧ e.error_info.code = 403) := by
  unfold requires_auth_decorated
  rw [if_neg hsecret, if_pos ⟨rfl, rfl⟩, sufficient_scope_user]
  by_cases h : sender_id ≠ none ∧ username = sender_id
  · rw [if_pos (by simpa using h)]
    refine ⟨by simpa using h, fun hnone => absurd hnone h.1, fun e he => by cases he⟩
  · rw [if_neg (by simpa using h)]
    refine ⟨by simpa using h, fun _ => rfl, fun e he => ?_⟩
    cases he
    exact ⟨rfl, rfl, rfl⟩

/-- Claim C2 witness: username `"alice"` with `sender_id = "alice"` is
granted under bearer auth with role `user`. -/
theorem user_role_scope_witness :
    requires_auth_decorated none none true true (some "alice") (some "user")
      (some "alice") = .granted :=
  (user_role_scope none none (some "alice") (some "alice") (by simp)).1.mpr
    (by simp)

/-- Claim C6: a request matched by none of the three modes — the secret
branch not taken, JWT not both enabled and authenticated, and not the
disabled configuration — fails with the 401 `NotAuthenticated` response,
whose reason differs from the `Forbidden` reason `NotAuthorized`. -/
theorem unauthenticated_fallthrough (token provided : Option String)
    (use_jwt is_authenticated : Bool) (username role sender_id : Option String)
    (h1 : ¬ (token ≠ none ∧ provided = token))
    (h2 : ¬ (use_jwt = true ∧ is_authenticated = true))
    (h3 : ¬ (token = none ∧ use_jwt = false)) :
    requires_auth_decorated token provided use_jwt is_authenticated
        username role sender_id
      = .failed (ErrorResponse.init 401 "NotAuthenticated"
          "User is not authenticated."
          none (some (_docs "/server.html#security-considerations")))
    ∧ (ErrorResponse.init 401 "NotAuthenticated" "User is not authenticated."
          none (some (_docs "/server.html#security-considerations"))).error_info.reason
        ≠ "NotAuthorized" := by
  constructor
  · unfold requires_auth_decorated
    rw [if_neg h1, if_neg h2, if_neg h3]
  · decide

/-- Claim C6 witness: a configured secret with a mismatching supplied token
and no JWT configuration yields the 401 response. -/
theorem unauthenticated_fallthrough_witness :
    requires_auth_decorated (some "secret") (some "wrong") false false
        none none none
      = .failed (ErrorResponse.init 401 "NotAuthenticated"
          "User is not authenticated."
          none (some (_docs "/server.html#security-considerations"))) :=
  (unauthenticated_fallthrough (some "secret") (some "wrong") false false
    none none none (by decide) (by decide) (by decide)).1

/-- Claim C10: every `ErrorResponse` built by the constructor carries an
`error_info` with the fields `version`, `status` (always `"failure"`),
`message`, `reason`, `details` (empty when none supplied), `help` and
`code`, where `code` equals the HTTP status the exception handler uses. -/
theorem error_response_shape (status : Nat) (reason message : String)
    (details : Option (List (String × String))) (help_url : Option String) :
    (ErrorResponse.init status reason message details help_url).error_info.version
        = rasa_version
    ∧ (ErrorResponse.init status reason message details help_url).error_info.status
        = "failure"
    ∧ (ErrorResponse.init status reason message details help_url).error_info.message
        = message
    ∧ (ErrorResponse.init status reason message details help_url).error_info.reason
        = reason
    ∧ (ErrorResponse.init status reason message details help_url).error_info.details
        = details.getD []
    ∧ (ErrorResponse.init status reason message details help_url).error_info.help
        = help_url
    ∧ (ErrorResponse.init status reason message details help_url).error_info.code
        = status
    ∧ (ignore_404s (ErrorResponse.init status reason message details help_url)).http_status
        = (ErrorResponse.init status reason message details help_url).error_info.code
    ∧ (ignore_404s (ErrorResponse.init status reason message details help_url)).body
        = (ErrorResponse.init status reason message details help_url).error_info :=
  ⟨rfl, rfl, rfl, rfl, rfl, rfl, rfl, rfl, rfl⟩

/-- Claim C8: the staleness predicate used by the resumption sweep holds
iff the last event timestamp is at least 86400 seconds before sweep start;
with force-update unset, a conversation exactly 86400 seconds old is
triggered by the sweep and one 86399 seconds old is skipped. -/
theorem staleness_boundary (current_time last_event_ts : Int) :
    (compare_utcdatetime_with_timegap current_time last_event_ts seconds_in_a_day
        = true ↔ last_event_ts ≤ current_time - 86400)
    ∧ trigger_resume_inactive_conv (p_stale current_time (current_time - 86400)) ["a"]
        = .ok [("a", "Action trigger sent")]
    ∧ trigger_resume_inactive_conv (p_stale current_time (current_time - 86399)) ["a"]
        = .ok [] := by
  refine ⟨?_, ?_, ?_⟩
  · simp only [compare_utcdatetime_with_timegap, seconds_in_a_day, decide_eq_true_eq]
    omega
  · have hc : compare_utcdatetime_with_timegap current_time (current_time - 86400)
        seconds_in_a_day = true := by
      simp only [compare_utcdatetime_with_timegap, seconds_in_a_day, decide_eq_true_eq]
      omega
    simp [trigger_resume_inactive_conv, trcGo, p_stale, hc]
  · have hc : compare_utcdatetime_with_timegap current_time (current_time - 86399)
        seconds_in_a_day = false := by
      simp only [compare_utcdatetime_with_timegap, seconds_in_a_day,
        decide_eq_false_iff_not]
      omega
    simp [trigger_resume_inactive_conv, trcGo, p_stale, hc]

theorem foldl_or_eq_last_capable (l : List InputChannel) (init : OutputChannel) :
    l.foldl
      (fun output_channel_created_so_far input_channel =>
        input_channel.output_channel.getD output_channel_created_so_far) init
      = (last_capable l).getD init := by
  induction l generalizing init with
  | nil => rfl
  | cons channel rest ih =>
    rw [List.foldl_cons, ih]
    have hstep : last_capable (channel :: rest)
        = match last_capable rest with
          | some o => some o
          | none => channel.output_channel := rfl
    rw [hstep]
    cases h : last_capable rest with
    | none => rfl
    | some o => rfl

/-- Claim C4 counterexample: with two registered channels both named
`"telegram"` and both able to produce an output channel, the source
resolver returns the second one's handle, not the first one's as the spec's
"first in registration order" rule would. -/
theorem output_channel_picks_last_counterexample :
    _get_output_channel (some "telegram") none c4_channels
        = .ofInput "second"
    ∧ _get_output_channel (some "telegram") none c4_channels
        ≠ _get_output_channel_spec (some "telegram") none c4_channels := by
  decide

/-- Claim C4 (amended): among the registered channels whose name equals the
resolved requested name, the resolver selects the LAST one in registration
order that can produce an output channel; if no filtered candidate can —
including zero candidates or an unresolved name — it returns the fallback
in-memory collecting channel. -/
theorem output_channel_picks_last (requested_output_channel : Option String)
    (tracker : Option Tracker) (registered_input_channels : List InputChannel) :
    _get_output_channel requested_output_channel tracker registered_input_channels
      = (last_capable (registered_input_channels.filter
          (fun channel => some channel.name
            == resolve_requested_output_channel requested_output_channel tracker))).getD
        OutputChannel.collecting := by
  unfold _get_output_channel
  exact foldl_or_eq_last_capable _ _

theorem hmwcGo_append (p : HmwcRequest) (pre rest : List String)
    (acc : List (String × String)) :
    hmwcGo p (pre ++ rest) acc
      = match hmwcGo p pre acc with
        | .ok r => hmwcGo p rest r
        | .error e => .error e := by
  induction pre generalizing acc with
  | nil => simp [hmwcGo]
  | cons id pre ih =>
    simp only [List.cons_append, hmwcGo]
    cases h : first_phone_match id with
    | none => rfl
    | some sender_id_str =>
      simp only
      split
      · cases p.handle_text p.message_to_handle
          (_get_output_channel p.requested_output_channel
            (some (p.get_or_create_tracker sender_id_str)) p.input_channels)
          sender_id_str with
        | ok u => exact ih _
        | error e => rfl
      · exact ih _

theorem trcGo_append (p : TrcRequest) (pre rest : List String)
    (acc : List (String × String)) :
    trcGo p (pre ++ rest) acc
      = match trcGo p pre acc with
        | .ok r => trcGo p rest r
        | .error e => .error e := by
  induction pre generalizing acc with
  | nil => simp [trcGo]
  | cons id pre ih =>
    simp only [List.cons_append, trcGo]
    split
    · cases p.execute_action id p.action_to_execute
        (_get_output_channel p.requested_output_channel
          (some (p.get_or_create_tracker id)) p.input_channels)
        p.policy p.confidence with
      | ok u => exact ih _
      | error e => cases e <;> rfl
    · exact ih _

/-- Claim C1 counterexample: over keys `["+1", "+2", "+3"]` where only the
second key's `handle_text` raises, the conditional-dispatch sweep does not
return a three-outcome collection with one `Failed` entry — it aborts the
whole request with a 500 `ActionException` error response, discarding the
already-processed first key. -/
theorem sweep_aborts_counterexample :
    handle_message_w_condition pC1 ["+1", "+2", "+3"]
      = .error (ErrorResponse.init 500 "ActionException"
          "Server failure. Error: boom" none none) := by
  rfl

/-- Claim C1 (amended): a per-key action failure is NOT isolated: in the
conditional-dispatch sweep, once every earlier key has been processed, a
key whose `handle_text` raises a non-`ValueError` exception makes the whole
request fail with the 500 `ActionException` error response (no `Failed`
outcome, later keys unprocessed, earlier outcomes discarded); in the
stale-conversation resumption sweep, a key whose `execute_action` raises a
non-`ValueError` exception likewise aborts the request with a 500 error
response whose reason is `ValueError`. -/
theorem sweep_aborts_on_item_failure :
    (∀ (p : HmwcRequest) (pre post : List String) (id sender_id_str : String)
        (r : List (String × String)) (m : String),
      hmwcGo p pre [] = .ok r →
      first_phone_match id = some sender_id_str →
      (p.force_update ||
        ((p.get_or_create_tracker sender_id_str).get_slot p.slot_condition_name
          == p.slot_value)) = true →
      p.handle_text p.message_to_handle
          (_get_output_channel p.requested_output_channel
            (some (p.get_or_create_tracker sender_id_str)) p.input_channels)
          sender_id_str
        = .error (.exception m) →
      handle_message_w_condition p (pre ++ id :: post)
        = .error (ErrorResponse.init 500 "ActionException"
            ("Server failure. Error: " ++ m) none none))
    ∧ (∀ (p : TrcRequest) (pre post : List String) (id : String)
        (r : List (String × String)) (m : String),
      trcGo p pre [] = .ok r →
      (p.force_update ||
        compare_utcdatetime_with_timegap p.current_time
          (p.get_or_create_tracker id).latest_event_time seconds_in_a_day) = true →
      p.execute_action id p.action_to_execute
          (_get_output_channel p.requested_output_channel
            (some (p.get_or_create_tracker id)) p.input_channels)
          p.policy p.confidence
        = .error (.exception m) →
      trigger_resume_inactive_conv p (pre ++ id :: post)
        = .error (ErrorResponse.init 500 "ValueError"
            ("Server failure. Error: " ++ m) none none)) := by
  constructor
  · intro p pre post id sender_id_str r m h1 h2 h3 h4
    unfold handle_message_w_condition
    rw [hmwcGo_append, h1]
    simp only [hmwcGo, h2, h3, h4, if_true]
  · intro p pre post id r m h1 h2 h3
    unfold trigger_resume_inactive_conv
    rw [trcGo_append, h1]
    simp only [trcGo, h2, h3, if_true]

/-- Claim C1 (amended) witness: instances of both abort statements at
concrete inputs. -/
theorem sweep_aborts_on_item_failure_witness :
    handle_message_w_condition pC1 (["+1"] ++ "+2" :: ["+3"])
      = .error (ErrorResponse.init 500 "ActionException"
          ("Server failure. Error: " ++ "boom") none none)
    ∧ trigger_resume_inactive_conv pT1 ([] ++ "a" :: [])
      = .error (ErrorResponse.init 500 "ValueError"
          ("Server failure. Error: " ++ "down") none none) :=
  ⟨sweep_aborts_on_item_failure.1 pC1 ["+1"] ["+3"] "+2" "+2"
      [("+1", "Message ping handle from id +1")] "boom" rfl rfl rfl rfl,
   sweep_aborts_on_item_failure.2 pT1 [] [] "a" [] "down" rfl rfl rfl⟩

theorem hmwcGo_ok (p : HmwcRequest) (ids : List String) (acc : List (String × String))
    (h : ∀ id ∈ ids, ∃ sender_id_str,
      first_phone_match id = some sender_id_str ∧
      ((p.force_update ||
          ((p.get_or_create_tracker sender_id_str).get_slot p.slot_condition_name
            == p.slot_value)) = true →
        p.handle_text p.message_to_handle
            (_get_output_channel p.requested_output_channel
              (some (p.get_or_create_tracker sender_id_str)) p.input_channels)
            sender_id_str = .ok ())) :
    hmwcGo p ids acc
      = .ok (acc ++ ids.filterMap (fun id =>
          (first_phone_match id).bind (fun sender_id_str =>
            if p.force_update ||
                ((p.get_or_create_tracker sender_id_str).get_slot p.slot_condition_name
                  == p.slot_value) then
              some (id, "Message " ++ p.message_to_handle ++ " handle from id "
                ++ sender_id_str)
            else none))) := by
  induction ids generalizing acc with
  | nil => simp [hmwcGo]
  | cons id rest ih =>
    obtain ⟨s, hs, hok⟩ := h id (by simp)
    have hrest := fun i hi => h i (List.mem_cons_of_mem id hi)
    simp only [hmwcGo, hs, List.filterMap_cons, Option.some_bind]
    by_cases hg : (p.force_update ||
        ((p.get_or_create_tracker s).get_slot p.slot_condition_name == p.slot_value)) = true
    · rw [if_pos hg, hok hg, ih _ hrest, if_pos hg]
      simp
    · rw [if_neg hg, ih _ hrest, if_neg hg]

/-- Claim C7 counterexample: a one-key sweep whose key fails the slot
predicate (and no force-update) returns an empty response collection — the
skipped key is omitted entirely rather than recorded as `Skipped`, so the
collection's length differs from the number of enumerated keys. -/
theorem sweep_skipped_omitted_counterexample :
    handle_message_w_condition pC7 ["+1"] = .ok []
    ∧ ([] : List (String × String)).length ≠ ["+1"].length := by
  exact ⟨rfl, by decide⟩

theorem trcGo_ok (p : TrcRequest) (ids : List String) (acc : List (String × String))
    (h : ∀ id ∈ ids,
      (p.force_update ||
          compare_utcdatetime_with_timegap p.current_time
            (p.get_or_create_tracker id).latest_event_time seconds_in_a_day) = true →
        p.execute_action id p.action_to_execute
            (_get_output_channel p.requested_output_channel
              (some (p.get_or_create_tracker id)) p.input_channels)
            p.policy p.confidence = .ok ()) :
    trcGo p ids acc
      = .ok (acc ++ ids.filterMap (fun id =>
          if p.force_update ||
              compare_utcdatetime_with_timegap p.current_time
                (p.get_or_create_tracker id).latest_event_time seconds_in_a_day then
            some (id, "Action trigger sent")
          else none)) := by
  induction ids generalizing acc with
  | nil => simp [trcGo]
  | cons id rest ih =>
    have hid := h id (by simp)
    have hrest := fun i hi => h i (List.mem_cons_of_mem id hi)
    simp only [trcGo, List.filterMap_cons]
    by_cases hg : (p.force_update ||
        compare_utcdatetime_with_timegap p.current_time
          (p.get_or_create_tracker id).latest_event_time seconds_in_a_day) = true
    · rw [if_pos hg, hid hg, ih _ hrest, if_pos hg]
      simp
    · rw [if_neg hg, ih _ hrest, if_neg hg]

/-- Claim C7 (amended): in both sweeps, when every triggered key's action
succeeds (and, for the conditional-dispatch sweep, every key holds a
phone-like substring), the returned collection has one entry exactly per
key that triggered (predicate held or update forced); keys failing the
predicate are omitted from the collection — there is no `Skipped` record
and the length equals the number of triggered keys, not the number of
enumerated keys. -/
theorem sweep_entries_are_triggered_keys :
    (∀ (p : HmwcRequest) (ids : List String),
      (∀ id ∈ ids, ∃ sender_id_str,
        first_phone_match id = some sender_id_str ∧
        ((p.force_update ||
            ((p.get_or_create_tracker sender_id_str).get_slot p.slot_condition_name
              == p.slot_value)) = true →
          p.handle_text p.message_to_handle
              (_get_output_channel p.requested_output_channel
                (some (p.get_or_create_tracker sender_id_str)) p.input_channels)
              sender_id_str = .ok ())) →
      handle_message_w_condition p ids
        = .ok (ids.filterMap (fun id =>
            (first_phone_match id).bind (fun sender_id_str =>
              if p.force_update ||
                  ((p.get_or_create_tracker sender_id_str).get_slot p.slot_condition_name
                    == p.slot_value) then
                some (id, "Message " ++ p.message_to_handle ++ " handle from id "
                  ++ sender_id_str)
              else none))))
    ∧ (∀ (p : TrcRequest) (ids : List String),
      (∀ id ∈ ids,
        (p.force_update ||
            compare_utcdatetime_with_timegap p.current_time
              (p.get_or_create_tracker id).latest_event_time seconds_in_a_day) = true →
          p.execute_action id p.action_to_execute
              (_get_output_channel p.requested_output_channel
                (some (p.get_or_create_tracker id)) p.input_channels)
              p.policy p.confidence = .ok ()) →
      trigger_resume_inactive_conv p ids
        = .ok (ids.filterMap (fun id =>
            if p.force_update ||
                compare_utcdatetime_with_timegap p.current_time
                  (p.get_or_create_tracker id).latest_event_time seconds_in_a_day then
              some (id, "Action trigger sent")
            else none))) := by
  constructor
  · intro p ids h
    unfold handle_message_w_condition
    rw [hmwcGo_ok p ids [] h]
    simp
  · intro p ids h
    unfold trigger_resume_inactive_conv
    rw [trcGo_ok p ids [] h]
    simp

/-- Claim C7 (amended) witness: keys `["+1", "+2"]` where only `"+1"`
matches the slot condition yield exactly the one triggered entry in the
conditional-dispatch sweep, and keys `["old", "new"]` where only `"old"`
is a day stale yield exactly the one triggered entry in the resumption
sweep. -/
theorem sweep_entries_are_triggered_keys_witness :
    handle_message_w_condition pW7 ["+1", "+2"]
      = .ok [("+1", "Message ping handle from id +1")]
    ∧ trigger_resume_inactive_conv pW7t ["old", "new"]
      = .ok [("old", "Action trigger sent")] := by
  constructor
  · refine (sweep_entries_are_triggered_keys.1 pW7 ["+1", "+2"] ?_).trans (by rfl)
    intro id hid
    simp only [List.mem_cons, List.not_mem_nil, or_false] at hid
    rcases hid with rfl | rfl
    · exact ⟨"+1", rfl, fun _ => rfl⟩
    · exact ⟨"+2", rfl, fun _ => rfl⟩
  · refine (sweep_entries_are_triggered_keys.2 pW7t ["old", "new"] ?_).trans (by rfl)
    intro id hid
    exact fun _ => rfl

/-- Claim C9: in the conditional-dispatch sweep, each key is reduced to its
first `\+[0-9]+` substring before the tracker lookup; once every earlier
key has been processed successfully, a key holding no such substring makes
the `[0]` indexing of the regex matches raise, and the entire request fails
with the 500 `ActionException` error response instead of producing
outcomes. -/
theorem sweep_requires_phone_keys (p : HmwcRequest) (pre post : List String)
    (id : String) (r : List (String × String))
    (h1 : hmwcGo p pre [] = .ok r)
    (h2 : first_phone_match id = none) :
    handle_message_w_condition p (pre ++ id :: post)
      = .error (ErrorResponse.init 500 "ActionException"
          ("Server failure. Error: " ++ index_error_message) none none) := by
  unfold handle_message_w_condition
  rw [hmwcGo_append, h1]
  simp only [hmwcGo, h2]

/-- Claim C9 witness: the key `"abc"`, holding no `\+[0-9]+` substring,
makes the whole sweep fail with the 500 response. -/
theorem sweep_requires_phone_keys_witness :
    handle_message_w_condition pC9 ["abc"]
      = .error (ErrorResponse.init 500 "ActionException"
          ("Server failure. Error: " ++ index_error_message) none none) :=
  sweep_requires_phone_keys pC9 [] [] "abc" [] rfl rfl

end RasaServer
